import Mathlib

/-!
Shallow embedding of the `signup-sequencer` Ethereum submission layer:
the OpenZeppelin relay backend (`src/ethereum/write_oz/openzeppelin.rs`)
and the direct backend / event ingestion facade (`src/ethereum/mod.rs`).

Network effects are modelled by passing the environment's responses
(list results, HTTP responses, per-query relay job records) explicitly,
and each operation returns a trace recording the observable effects the
claims speak about (whether a creation request was attempted, which job
id was polled, the sleeps performed, whether network I/O happened).
Panics (slice out of bounds, `Option::unwrap` on `None`) are modelled as
a distinguished `panicked` outcome.
-/

namespace SignupSequencer

/-- `SubmittedTransaction` from `openzeppelin.rs`: a relay job record.
The `to` field is named `toAddress` (`to` is reserved in Lean); it is
abstracted to a string name-or-address, and `Bytes` to a byte list. -/
structure SubmittedTransaction where
  transaction_id : Option String
  toAddress : Option String
  value : Option Nat
  gas_limit : Option Nat
  data : Option (List Nat)
  status : Option String
deriving DecidableEq, Repr

/-- `enum Error` from `openzeppelin.rs`. -/
inductive Error where
  | Transport
  | Authentication
  | UnknownResponse
deriving DecidableEq, Repr

/-- `TxError` from `crate::ethereum` as used by `openzeppelin.rs`:
`Send` wraps a lower-level relay error, `SendTimeout` is the overall
send deadline, `Dropped` carries a transaction hash (modelled as `Nat`;
`TxHash::default()` is `0`). -/
inductive TxError where
  | Send (e : Error)
  | SendTimeout
  | Dropped (hash : Nat)
deriving DecidableEq, Repr

/-- Outcome of one `query(id)` round trip inside the polling loop. -/
inductive QueryOutcome where
  | ok (t : SubmittedTransaction)
  | err (e : Error)
deriving DecidableEq, Repr

/-- Result of `mine_transaction_id`: the returned record or the error. -/
inductive MineOutcome where
  | ok (t : SubmittedTransaction)
  | err (e : TxError)
deriving DecidableEq, Repr

/-- The terminal-status test of the polling loop:
`status == "mined" || status == "confirmed" || status == "failed"`. -/
def terminalStatus (s : String) : Bool :=
  s == "mined" || s == "confirmed" || s == "failed"

/-- Trace of one `mine_transaction_id` run: its result, how many status
queries it issued, and the list of sleep durations (seconds) performed
between successive queries. -/
structure MineTrace where
  result : MineOutcome
  queries : Nat
  sleeps : List Nat
deriving DecidableEq, Repr

/-- `OzRelay::mine_transaction_id`, driven by the finite list of
responses the environment gives to successive `query` calls. `none`
means the loop consumed every provided response without returning
(it would keep polling). Each continuation sleeps 5 seconds
(`tokio::time::sleep(Duration::from_secs(5))`). -/
def mine_transaction_id : List QueryOutcome → Option MineTrace
  | [] => none
  | q :: rest =>
    match q with
    | QueryOutcome.err e => some ⟨MineOutcome.err (TxError.Send e), 1, []⟩
    | QueryOutcome.ok t =>
      match t.status with
      | none => some ⟨MineOutcome.err (TxError.Dropped 0), 1, []⟩
      | some s =>
        if terminalStatus s then some ⟨MineOutcome.ok t, 1, []⟩
        else
          match mine_transaction_id rest with
          | none => none
          | some tr => some ⟨tr.result, tr.queries + 1, 5 :: tr.sleeps⟩

/-- `TypedTransaction` as consumed by the relay backend: the fields the
code reads (`to()`, `value()`, `gas()`, `data()`). The `to` field is
named `toAddress` (`to` is reserved in Lean). -/
structure TypedTransaction where
  toAddress : Option String
  value : Option Nat
  gas : Option Nat
  data : Option (List Nat)
deriving DecidableEq, Repr

/-- `OzRelay` from `openzeppelin.rs`; `send_timeout` is in seconds. -/
structure OzRelay where
  api_key : String
  api_secret : String
  send_timeout : Nat
deriving DecidableEq, Repr

/-- `OzRelay::new`: fixes the send timeout at 60 seconds. -/
def OzRelay.new (api_key api_secret : String) : OzRelay :=
  ⟨api_key, api_secret, 60⟩

/-- `u32::from_be_bytes` on a 4-byte big-endian buffer. -/
def u32_from_be_bytes (bs : List Nat) : Nat :=
  bs.foldl (fun acc b => acc * 256 + b) 0

/-- The `bytes4` selector extraction in `OzRelay::send_transaction`:
`tx.data().map_or(0, |data| u32::from_be_bytes(data[..4]))`. The slice
`data[..4]` panics when `data` is present but shorter than 4 bytes;
the panic is modelled as `none`. -/
def bytes4_of_data : Option (List Nat) → Option Nat
  | none => some 0
  | some d =>
    if 4 ≤ d.length then some (u32_from_be_bytes (d.take 4)) else none

/-- Shape of the JSON body of the relay's creation response, as far as
`send_oz_transaction` inspects it: parseable or not, and whether a
`transactionId` field is present and is a string. -/
inductive JsonBody where
  | unparseable
  | missingTransactionId
  | transactionIdNotString
  | transactionIdString (id : String)
deriving DecidableEq, Repr

/-- Outcome of the `POST {RELAY_TXS_URL}` round trip: the transport
failed, or a response with an HTTP status code and a body arrived. -/
inductive PostOutcome where
  | connectFailed
  | response (status : Nat) (body : JsonBody)
deriving DecidableEq, Repr

/-- `StatusCode::is_success` from the `http` crate: 2xx statuses. -/
def statusIsSuccess (s : Nat) : Bool :=
  200 ≤ s && s ≤ 299

/-- Result of `send_oz_transaction`: the relay-assigned job id, an
`Error`, or a panic (`as_str().unwrap()` on a non-string field). -/
inductive SendOzResult where
  | ok (id : String)
  | err (e : Error)
  | panicked
deriving DecidableEq, Repr

/-- `OzRelay::send_oz_transaction`, driven by the environment:
`clientOk` says whether `get_client` succeeded, `post` is the HTTP
round trip's outcome. A non-`200 OK` status yields
`Error::Authentication`; on `200 OK` the body is parsed for a
`transactionId` string. -/
def send_oz_transaction (clientOk : Bool) (post : PostOutcome) : SendOzResult :=
  if clientOk then
    match post with
    | PostOutcome.connectFailed => SendOzResult.err Error.Authentication
    | PostOutcome.response status body =>
      if status = 200 then
        match body with
        | JsonBody.unparseable => SendOzResult.err Error.UnknownResponse
        | JsonBody.missingTransactionId => SendOzResult.err Error.UnknownResponse
        | JsonBody.transactionIdNotString => SendOzResult.panicked
        | JsonBody.transactionIdString id => SendOzResult.ok id
      else SendOzResult.err Error.Authentication
  else SendOzResult.err Error.Authentication

/-- Outcome of `list_transactions`: job records or an `Error`. -/
inductive ListOutcome where
  | ok (txs : List SubmittedTransaction)
  | err (e : Error)
deriving DecidableEq, Repr

/-- The environment one `send_transaction` call runs against: the
listing response, whether the 60 s send timeout elapsed before
`send_oz_transaction` finished, the client acquisition and POST
outcomes for the creation request, and the successive status-query
responses consumed by the polling loop. -/
structure RelayEnv where
  listResult : ListOutcome
  sendTimedOut : Bool
  sendClientOk : Bool
  sendPost : PostOutcome
  queryResults : List QueryOutcome
deriving Repr

/-- `ethers` `TransactionReceipt`, restricted to the one field the code
sets (`block_number`); all other fields are defaulted. -/
structure TransactionReceipt where
  block_number : Option Nat
deriving DecidableEq, Repr

/-- Terminal observable of a `send_transaction` call. `panicked` marks
a Rust panic; `stillPolling` means the polling loop consumed all the
responses the environment provided without reaching a terminal status
(it would keep polling). -/
inductive RelayOutcome where
  | ok (r : TransactionReceipt)
  | err (e : TxError)
  | panicked
  | stillPolling
deriving DecidableEq, Repr

/-- Trace of one `send_transaction` call: its outcome, whether a
job-creation request was attempted (`send_oz_transaction` reached),
which existing or new job id was polled, and which 4-byte selector the
`TX_COUNT` metric was incremented with. -/
structure SendTrace where
  outcome : RelayOutcome
  creationAttempted : Bool
  polledId : Option String
  selectorCounted : Option Nat
deriving DecidableEq, Repr

/-- The dedup scan in `send_transaction`:
`existing_transactions.iter().find(|el| match (&el.data, tx.data()) {
(Some(a), Some(b)) => a == b, _ => false })`. -/
def find_existing (txs : List SubmittedTransaction) (d : Option (List Nat)) :
    Option SubmittedTransaction :=
  txs.find? (fun el =>
    match el.data, d with
    | some a, some b => a == b
    | _, _ => false)

/-- The non-dedup tail of `send_transaction`: selector extraction and
metric increment, the creation request under the overall send timeout,
then polling the new job id. -/
def send_transaction_fresh (tx : TypedTransaction) (env : RelayEnv) : SendTrace :=
  match bytes4_of_data tx.data with
  | none => ⟨RelayOutcome.panicked, false, none, none⟩
  | some sel =>
    if env.sendTimedOut then
      ⟨RelayOutcome.err TxError.SendTimeout, true, none, some sel⟩
    else
      match send_oz_transaction env.sendClientOk env.sendPost with
      | SendOzResult.panicked => ⟨RelayOutcome.panicked, true, none, some sel⟩
      | SendOzResult.err e => ⟨RelayOutcome.err (TxError.Send e), true, none, some sel⟩
      | SendOzResult.ok txId =>
        match mine_transaction_id env.queryResults with
        | none => ⟨RelayOutcome.stillPolling, true, some txId, some sel⟩
        | some tr =>
          match tr.result with
          | MineOutcome.err e => ⟨RelayOutcome.err e, true, some txId, some sel⟩
          | MineOutcome.ok _ => ⟨RelayOutcome.ok ⟨some 10⟩, true, some txId, some sel⟩

/-- `OzRelay::send_transaction`. The gas limit is overridden to
1 000 000 first. On a retry, the job listing is scanned for a record
with the same `data` payload; a hit skips the creation request and
polls the existing job's id (`transaction_id.unwrap()` panics when it
is absent), returning a stub receipt with block number 10 on success. -/
def send_transaction (tx0 : TypedTransaction) (is_retry : Bool) (env : RelayEnv) :
    SendTrace :=
  let tx : TypedTransaction := { tx0 with gas := some 1000000 }
  if is_retry then
    match env.listResult with
    | ListOutcome.err e => ⟨RelayOutcome.err (TxError.Send e), false, none, none⟩
    | ListOutcome.ok existing =>
      match find_existing existing tx.data with
      | some ex =>
        match ex.transaction_id with
        | none => ⟨RelayOutcome.panicked, false, none, none⟩
        | some id =>
          match mine_transaction_id env.queryResults with
          | none => ⟨RelayOutcome.stillPolling, false, some id, none⟩
          | some tr =>
            match tr.result with
            | MineOutcome.err e => ⟨RelayOutcome.err e, false, some id, none⟩
            | MineOutcome.ok _ => ⟨RelayOutcome.ok ⟨some 10⟩, false, some id, none⟩
      | none => send_transaction_fresh tx env
  else send_transaction_fresh tx env

/-- `ExpiringClient` from `openzeppelin.rs`: a cached HTTP client
(abstracted to a `Nat` identity) and its expiration timestamp. -/
structure ExpiringClient where
  client : Nat
  expiration_time : Int
deriving DecidableEq, Repr

/-- The `CLIENTS` map (`HashMap<String, ExpiringClient>`), modelled as
an association list whose first binding for a key is current. -/
abbrev ClientCache := List (String × ExpiringClient)

/-- `HashMap::get` on the model: the first binding of the key. -/
def cacheGet (cache : ClientCache) (key : String) : Option ExpiringClient :=
  (cache.find? (fun p => p.1 == key)).map Prod.snd

/-- `HashMap::insert` on the model: a new binding shadowing old ones. -/
def cacheInsert (cache : ClientCache) (key : String) (v : ExpiringClient) :
    ClientCache :=
  (key, v) :: cache

/-- Outcome of one Cognito authentication exchange plus client build:
the exchange failed (auth error, `None` response, or missing access
token), the exchange returned `expires_in` but the header/client build
failed, or a client was built with the returned `expires_in`. -/
inductive AuthOutcome where
  | authFailed
  | clientBuildFailed (expires_in : Int)
  | built (client : Nat) (expires_in : Int)
deriving DecidableEq, Repr

/-- Result of `get_client`: the returned client or failure, the cache
state afterwards, and whether an authentication exchange was
performed. -/
structure GetClientResult where
  client : Option Nat
  cache : ClientCache
  authPerformed : Bool
deriving DecidableEq, Repr

/-- The refresh tail of `get_client`: performs the authentication
exchange; on success stores the new client under the key with
`expiration_time = now + expires_in`. Failures return early without
touching the cache. -/
def get_client_refresh (api_key : String) (now : Int) (a : AuthOutcome)
    (cache : ClientCache) : GetClientResult :=
  match a with
  | AuthOutcome.authFailed => ⟨none, cache, true⟩
  | AuthOutcome.clientBuildFailed _ => ⟨none, cache, true⟩
  | AuthOutcome.built c e =>
    ⟨some c, cacheInsert cache api_key ⟨c, now + e⟩, true⟩

/-- `get_client` from `openzeppelin.rs`: under the `CLIENTS` lock, a
cached client is reused when `now < expiration_time` (no exchange);
otherwise the entry is refreshed. -/
def get_client (api_key : String) (now : Int) (a : AuthOutcome)
    (cache : ClientCache) : GetClientResult :=
  match cacheGet cache api_key with
  | some ec =>
    if now < ec.expiration_time then ⟨some ec.client, cache, false⟩
    else get_client_refresh api_key now a cache
  | none => get_client_refresh api_key now a cache

/-- Classified outcome of `Ethereum::insert_identity` (`mod.rs`):
`dropped` is the `"tx dropped from mempool"` error raised when the
pending-transaction handle resolves without a receipt; `sendFailed` is
the propagated error of the `send_transaction` broadcast itself;
`awaitFailed` is the propagated error of awaiting the handle. -/
inductive InsertOutcome where
  | ok
  | dropped
  | sendFailed
  | awaitFailed
deriving DecidableEq, Repr

/-- Result of the `pending_tx.await` step: a provider error, or
resolution with an optional receipt (abstracted to a `Nat`). -/
inductive AwaitOutcome where
  | err
  | resolved (receipt : Option Nat)
deriving DecidableEq, Repr

/-- Trace of one `insert_identity` call: its classified outcome,
whether any network send was performed, and — when one was — whether
the legacy (non-EIP-1559) transaction shape was used. -/
structure InsertTrace where
  outcome : InsertOutcome
  networkCalled : Bool
  sentLegacy : Option Bool
deriving DecidableEq, Repr

/-- `Ethereum::insert_identity`, driven by the environment: `sendOk`
is whether `provider.send_transaction` succeeded, `awaited` the
resolution of the pending handle. Mock mode returns success without
any network call. -/
def insert_identity (mock eip1559 : Bool) (sendOk : Bool)
    (awaited : AwaitOutcome) : InsertTrace :=
  if mock then ⟨InsertOutcome.ok, false, none⟩
  else
    if sendOk then
      match awaited with
      | AwaitOutcome.err => ⟨InsertOutcome.awaitFailed, true, some (!eip1559)⟩
      | AwaitOutcome.resolved none => ⟨InsertOutcome.dropped, true, some (!eip1559)⟩
      | AwaitOutcome.resolved (some _) => ⟨InsertOutcome.ok, true, some (!eip1559)⟩
    else ⟨InsertOutcome.sendFailed, true, some (!eip1559)⟩

/-- A raw `LeafInsertion` log record as the filter query returns it:
the `leaf` field (a 256-bit big-endian integer, modelled as `Nat`) and
the `leaf_index` field. -/
structure LeafInsertionRecord where
  leaf : Nat
  leaf_index : Nat
deriving DecidableEq, Repr

/-- `U256::to_big_endian` into a 32-byte buffer. -/
def to_be_bytes32 (n : Nat) : List Nat :=
  (List.range 32).map (fun i => n / 256 ^ (31 - i) % 256)

/-- Modelled from the spec: `Hash::from_be_bytes_mod_order` lives in
`crate::app`, outside these sources. The spec describes the commitment
as the 32-byte hash decoded from the `leaf` field, a big-endian
32-byte integer, so the model keeps the 32 big-endian bytes as the
hash value. -/
def hashFromBeBytes (bytes : List Nat) : List Nat :=
  bytes

/-- `Ethereum::fetch_events`, driven by the raw records the log query
returns: decodes each record in order into `(leaf_index, commitment)`;
the second component of the result says whether the chain was queried.
Mock mode returns the empty list without querying. -/
def fetch_events (mock : Bool) (logs : List LeafInsertionRecord) :
    List (Nat × List Nat) × Bool :=
  if mock then ([], false)
  else
    (logs.map (fun ev => (ev.leaf_index, hashFromBeBytes (to_be_bytes32 ev.leaf))),
      true)

/-! ### Concrete records used by witnesses and examples -/

/-- A relay job record whose status is `"pending"`. -/
def txPending : SubmittedTransaction :=
  ⟨some "id-1", none, none, none, none, some "pending"⟩

/-- A relay job record whose status is `"confirmed"`. -/
def txConfirmed : SubmittedTransaction :=
  ⟨some "id-1", none, none, none, none, some "confirmed"⟩

/-- A relay job record with no status field. -/
def txNoStatus : SubmittedTransaction :=
  ⟨some "id-2", none, none, none, none, none⟩

/-! ### Helper lemmas -/

/-- Any terminating run of the polling loop issues at least one query,
sleeps exactly 5 seconds between successive queries, and returns a
record only when its status passed the terminal-status test. -/
theorem mine_transaction_id_spec (resp : List QueryOutcome) :
    ∀ tr, mine_transaction_id resp = some tr →
      1 ≤ tr.queries ∧ tr.sleeps = List.replicate (tr.queries - 1) 5 ∧
      ∀ t, tr.result = MineOutcome.ok t →
        ∃ s, t.status = some s ∧ terminalStatus s = true := by
  induction resp with
  | nil => intro tr h; simp [mine_transaction_id] at h
  | cons q rest ih =>
    intro tr h
    cases q with
    | err e =>
      simp [mine_transaction_id] at h
      subst h
      refine ⟨le_refl 1, rfl, ?_⟩
      intro t ht
      exact absurd ht (by simp)
    | ok t0 =>
      cases hst : t0.status with
      | none =>
        simp [mine_transaction_id, hst] at h
        subst h
        refine ⟨le_refl 1, rfl, ?_⟩
        intro t ht
        exact absurd ht (by simp)
      | some s =>
        by_cases hterm : terminalStatus s = true
        · simp [mine_transaction_id, hst, hterm] at h
          subst h
          refine ⟨le_refl 1, rfl, ?_⟩
          intro t ht
          simp at ht
          subst ht
          exact ⟨s, hst, hterm⟩
        · cases hrec : mine_transaction_id rest with
          | none => simp [mine_transaction_id, hst, hterm, hrec] at h
          | some tr0 =>
            simp [mine_transaction_id, hst, hterm, hrec] at h
            subst h
            obtain ⟨h1, h2, h3⟩ := ih tr0 hrec
            obtain ⟨k, hk⟩ : ∃ k, tr0.queries = k + 1 :=
              ⟨tr0.queries - 1, by omega⟩
            refine ⟨by simp, ?_, ?_⟩
            · simp [h2, hk, List.replicate_succ]
            · intro t ht
              exact h3 t ht

/-! ### Claims -/

/-- C4: `mine_transaction_id` returns a job record only when that
record's status is one of mined, confirmed, or failed, sleeping a
fixed 5 seconds between successive status queries; for the status
sequence `[pending, pending, confirmed]` it returns after the third
query with status confirmed. -/
theorem claim_C4_polling_terminal :
    (∀ resp tr, mine_transaction_id resp = some tr →
      ∀ t, tr.result = MineOutcome.ok t →
        (∃ s, t.status = some s ∧
          (s = "mined" ∨ s = "confirmed" ∨ s = "failed")) ∧
        tr.sleeps = List.replicate (tr.queries - 1) 5) ∧
    mine_transaction_id
        [QueryOutcome.ok txPending, QueryOutcome.ok txPending,
          QueryOutcome.ok txConfirmed] =
      some ⟨MineOutcome.ok txConfirmed, 3, [5, 5]⟩ := by
  constructor
  · intro resp tr h t ht
    obtain ⟨_, h2, h3⟩ := mine_transaction_id_spec resp tr h
    obtain ⟨s, hs, hterm⟩ := h3 t ht
    refine ⟨⟨s, hs, ?_⟩, h2⟩
    have := hterm
    simp [terminalStatus] at this
    tauto
  · decide

/-- Witness for C4 at the concrete three-query run. -/
theorem claim_C4_polling_terminal_witness :
    (∃ s, txConfirmed.status = some s ∧
      (s = "mined" ∨ s = "confirmed" ∨ s = "failed")) ∧
    ([5, 5] : List Nat) = List.replicate (3 - 1) 5 :=
  claim_C4_polling_terminal.1
    [QueryOutcome.ok txPending, QueryOutcome.ok txPending,
      QueryOutcome.ok txConfirmed]
    ⟨MineOutcome.ok txConfirmed, 3, [5, 5]⟩ (by decide) txConfirmed rfl

/-- C10: a status query inside the polling loop that returns a record
with no status field makes the loop terminate immediately with
`Dropped` carrying the default transaction hash, regardless of any
further responses, rather than continuing to poll. -/
theorem claim_C10_absent_status (t : SubmittedTransaction)
    (rest : List QueryOutcome) (h : t.status = none) :
    mine_transaction_id (QueryOutcome.ok t :: rest) =
      some ⟨MineOutcome.err (TxError.Dropped 0), 1, []⟩ := by
  simp [mine_transaction_id, h]

/-- Witness for C10: a record with no status, followed by a pending
response that is never consumed. -/
theorem claim_C10_absent_status_witness :
    mine_transaction_id [QueryOutcome.ok txNoStatus, QueryOutcome.ok txPending] =
      some ⟨MineOutcome.err (TxError.Dropped 0), 1, []⟩ :=
  claim_C10_absent_status txNoStatus [QueryOutcome.ok txPending] rfl

/-- C7: with mock mode enabled, `insert_identity` performs no network
call and returns success, and `fetch_events` performs no network call
and returns the empty sequence, for every input. -/
theorem claim_C7_mock_mode :
    (∀ eip sendOk awaited,
      insert_identity true eip sendOk awaited = ⟨InsertOutcome.ok, false, none⟩) ∧
    (∀ logs, fetch_events true logs = ([], false)) := by
  exact ⟨fun _ _ _ => rfl, fun _ => rfl⟩

/-- C6: with mock mode off, a successful broadcast whose
pending-transaction handle resolves with no receipt fails with the
`dropped` kind, and a faulted broadcast propagates as the
send-failure kind. -/
theorem claim_C6_dropped_and_send_failed :
    (∀ eip, (insert_identity false eip true (AwaitOutcome.resolved none)).outcome =
      InsertOutcome.dropped) ∧
    (∀ eip awaited, (insert_identity false eip false awaited).outcome =
      InsertOutcome.sendFailed) := by
  exact ⟨fun _ => rfl, fun _ _ => rfl⟩

/-- C5 counterexample: 201 Created is a success HTTP status, yet the
creation step fails with `Authentication` instead of returning the
`transactionId` present in the body — the code accepts only exactly
`200 OK`. -/
theorem claim_C5_counterexample :
    statusIsSuccess 201 = true ∧
    send_oz_transaction true
        (PostOutcome.response 201 (JsonBody.transactionIdString "tx-1")) =
      SendOzResult.err Error.Authentication := by
  exact ⟨rfl, rfl⟩

/-- C5 (amended): every creation response with a status other than
exactly `200 OK` fails with the `Authentication` error kind, and on
`200 OK` the relay-assigned `transactionId` string from the body is
returned. -/
theorem claim_C5_status_classification (status : Nat) (body : JsonBody)
    (h : status ≠ 200) :
    send_oz_transaction true (PostOutcome.response status body) =
      SendOzResult.err Error.Authentication ∧
    ∀ id, send_oz_transaction true
        (PostOutcome.response 200 (JsonBody.transactionIdString id)) =
      SendOzResult.ok id := by
  constructor
  · simp [send_oz_transaction, h]
  · intro id; rfl

/-- Witness for C5 (amended) at status 404. -/
theorem claim_C5_status_classification_witness :
    send_oz_transaction true (PostOutcome.response 404 JsonBody.unparseable) =
      SendOzResult.err Error.Authentication ∧
    ∀ id, send_oz_transaction true
        (PostOutcome.response 200 (JsonBody.transactionIdString id)) =
      SendOzResult.ok id :=
  claim_C5_status_classification 404 JsonBody.unparseable (by decide)

/-- C9: the 4-byte selector extraction is total whenever the data
field is absent or at least 4 bytes long, and every submission that
reaches the selector-counting step with a present data field shorter
than 4 bytes panics on the out-of-bounds slice. -/
theorem claim_C9_selector_totality :
    (∀ d, (d = none ∨ ∃ l, d = some l ∧ 4 ≤ l.length) →
      ∃ n, bytes4_of_data d = some n) ∧
    (∀ tx env l, tx.data = some l → l.length < 4 →
      (send_transaction tx false env).outcome = RelayOutcome.panicked) := by
  constructor
  · rintro d (rfl | ⟨l, rfl, hl⟩)
    · exact ⟨0, rfl⟩
    · exact ⟨u32_from_be_bytes (l.take 4), by simp [bytes4_of_data, hl]⟩
  · intro tx env l hd hl
    have hb : bytes4_of_data tx.data = none := by
      simp [bytes4_of_data, hd, Nat.not_le.mpr hl]
    simp [send_transaction, send_transaction_fresh, hb]

/-- Witness for C9 at a 1-byte data field. -/
theorem claim_C9_selector_totality_witness :
    (send_transaction ⟨none, none, none, some [1]⟩ false
        ⟨ListOutcome.ok [], false, true, PostOutcome.connectFailed, []⟩).outcome =
      RelayOutcome.panicked :=
  claim_C9_selector_totality.2 ⟨none, none, none, some [1]⟩
    ⟨ListOutcome.ok [], false, true, PostOutcome.connectFailed, []⟩
    [1] rfl (by decide)

/-- C3: when the submission reaches the creation step and the overall
send timeout (configured at 60 seconds by `OzRelay::new`) elapses
before the job id is acquired, the submission fails with
`SendTimeout` and never with a wrapped `Send` error (which is what an
authentication or transport failure of the creation step becomes). -/
theorem claim_C3_send_timeout (k s : String) (tx : TypedTransaction)
    (env : RelayEnv) (is_retry : Bool)
    (hreach : is_retry = false ∨
      ∃ txs, env.listResult = ListOutcome.ok txs ∧
        find_existing txs tx.data = none)
    (hsel : ∃ n, bytes4_of_data tx.data = some n)
    (htimeout : env.sendTimedOut = true) :
    (send_transaction tx is_retry env).outcome =
      RelayOutcome.err TxError.SendTimeout ∧
    (∀ e, (send_transaction tx is_retry env).outcome ≠
      RelayOutcome.err (TxError.Send e)) ∧
    (OzRelay.new k s).send_timeout = 60 := by
  obtain ⟨n, hn⟩ := hsel
  have hmain : (send_transaction tx is_retry env).outcome =
      RelayOutcome.err TxError.SendTimeout := by
    cases is_retry with
    | false =>
      simp [send_transaction, send_transaction_fresh, hn, htimeout]
    | true =>
      rcases hreach with h | ⟨txs, hlist, hfind⟩
      · exact absurd h (by simp)
      · simp [send_transaction, send_transaction_fresh, hlist, hfind, hn,
          htimeout]
  refine ⟨hmain, ?_, rfl⟩
  intro e
  rw [hmain]
  simp

/-- Witness for C3: a non-retry submission with empty data whose
creation step timed out. -/
theorem claim_C3_send_timeout_witness :
    (send_transaction ⟨none, none, none, none⟩ false
        ⟨ListOutcome.ok [], true, true, PostOutcome.connectFailed, []⟩).outcome =
      RelayOutcome.err TxError.SendTimeout ∧
    (∀ e, (send_transaction ⟨none, none, none, none⟩ false
        ⟨ListOutcome.ok [], true, true, PostOutcome.connectFailed, []⟩).outcome ≠
      RelayOutcome.err (TxError.Send e)) ∧
    (OzRelay.new "key" "secret").send_timeout = 60 :=
  claim_C3_send_timeout "key" "secret" ⟨none, none, none, none⟩
    ⟨ListOutcome.ok [], true, true, PostOutcome.connectFailed, []⟩
    false (Or.inl rfl) ⟨0, rfl⟩ rfl

/-- C1: on a retry, when the job listing contains a record whose data
payload equals the new call's payload and that record carries a job
id, no creation request is attempted; the backend polls that existing
job id and returns the polling step's outcome (the stub receipt on a
terminal record, the polling error otherwise). -/
theorem claim_C1_retry_dedup (tx : TypedTransaction) (env : RelayEnv)
    (txs : List SubmittedTransaction) (ex : SubmittedTransaction) (id : String)
    (hlist : env.listResult = ListOutcome.ok txs)
    (hfind : find_existing txs tx.data = some ex)
    (hid : ex.transaction_id = some id) :
    (send_transaction tx true env).creationAttempted = false ∧
    (send_transaction tx true env).polledId = some id ∧
    (∀ tr, mine_transaction_id env.queryResults = some tr →
      (send_transaction tx true env).outcome =
        match tr.result with
        | MineOutcome.ok _ => RelayOutcome.ok ⟨some 10⟩
        | MineOutcome.err e => RelayOutcome.err e) := by
  cases hmine : mine_transaction_id env.queryResults with
  | none =>
    refine ⟨?_, ?_, ?_⟩
    · simp [send_transaction, hlist, hfind, hid, hmine]
    · simp [send_transaction, hlist, hfind, hid, hmine]
    · intro tr h
      exact absurd h (by simp)
  | some tr0 =>
    cases hres : tr0.result with
    | ok t =>
      refine ⟨?_, ?_, ?_⟩
      · simp [send_transaction, hlist, hfind, hid, hmine, hres]
      · simp [send_transaction, hlist, hfind, hid, hmine, hres]
      · intro tr h
        injection h with h
        subst h
        simp [send_transaction, hlist, hfind, hid, hmine, hres]
    | err e =>
      refine ⟨?_, ?_, ?_⟩
      · simp [send_transaction, hlist, hfind, hid, hmine, hres]
      · simp [send_transaction, hlist, hfind, hid, hmine, hres]
      · intro tr h
        injection h with h
        subst h
        simp [send_transaction, hlist, hfind, hid, hmine, hres]

/-- Witness for C1: a retry whose listing holds a job with the same
payload; the call polls the existing id and returns the stub receipt. -/
theorem claim_C1_retry_dedup_witness :
    (send_transaction ⟨none, none, none, some [1, 2, 3, 4]⟩ true
        ⟨ListOutcome.ok
            [⟨some "id-1", none, none, none, some [1, 2, 3, 4], some "pending"⟩],
          false, true, PostOutcome.connectFailed,
          [QueryOutcome.ok txConfirmed]⟩).creationAttempted = false ∧
    (send_transaction ⟨none, none, none, some [1, 2, 3, 4]⟩ true
        ⟨ListOutcome.ok
            [⟨some "id-1", none, none, none, some [1, 2, 3, 4], some "pending"⟩],
          false, true, PostOutcome.connectFailed,
          [QueryOutcome.ok txConfirmed]⟩).polledId = some "id-1" ∧
    (∀ tr, mine_transaction_id [QueryOutcome.ok txConfirmed] = some tr →
      (send_transaction ⟨none, none, none, some [1, 2, 3, 4]⟩ true
          ⟨ListOutcome.ok
              [⟨some "id-1", none, none, none, some [1, 2, 3, 4], some "pending"⟩],
            false, true, PostOutcome.connectFailed,
            [QueryOutcome.ok txConfirmed]⟩).outcome =
        match tr.result with
        | MineOutcome.ok _ => RelayOutcome.ok ⟨some 10⟩
        | MineOutcome.err e => RelayOutcome.err e) :=
  claim_C1_retry_dedup ⟨none, none, none, some [1, 2, 3, 4]⟩
    ⟨ListOutcome.ok
        [⟨some "id-1", none, none, none, some [1, 2, 3, 4], some "pending"⟩],
      false, true, PostOutcome.connectFailed, [QueryOutcome.ok txConfirmed]⟩
    [⟨some "id-1", none, none, none, some [1, 2, 3, 4], some "pending"⟩]
    ⟨some "id-1", none, none, none, some [1, 2, 3, 4], some "pending"⟩
    "id-1" rfl (by decide) rfl

/-- C2: client acquisition reuses a cached client whose expiration is
strictly later than now without any authentication exchange; on a
cache miss or an expired entry it performs one exchange and, when the
exchange returns a client and an expires-in duration, replaces the
entry with expiration `now + expires_in`; consequently a second
acquisition with the same key inside the validity window performs no
further exchange. -/
theorem claim_C2_credential_cache :
    (∀ k now a cache ec, cacheGet cache k = some ec →
      now < ec.expiration_time →
      get_client k now a cache = ⟨some ec.client, cache, false⟩) ∧
    (∀ k now a cache,
      (∀ ec, cacheGet cache k = some ec → ec.expiration_time ≤ now) →
      (get_client k now a cache).authPerformed = true ∧
      ∀ c e, a = AuthOutcome.built c e →
        get_client k now a cache =
          ⟨some c, cacheInsert cache k ⟨c, now + e⟩, true⟩) ∧
    (∀ k now1 now2 c e cache a2,
      (∀ ec, cacheGet cache k = some ec → ec.expiration_time ≤ now1) →
      now2 < now1 + e →
      (get_client k now1 (AuthOutcome.built c e) cache).authPerformed = true ∧
      (get_client k now2 a2
          (get_client k now1 (AuthOutcome.built c e) cache).cache).authPerformed =
        false) := by
  have hrefresh : ∀ k now a (cache : ClientCache),
      (∀ ec, cacheGet cache k = some ec → ec.expiration_time ≤ now) →
      get_client k now a cache = get_client_refresh k now a cache := by
    intro k now a cache hexp
    cases hc : cacheGet cache k with
    | none => simp [get_client, hc]
    | some ec =>
      have : ¬ now < ec.expiration_time := not_lt.mpr (hexp ec hc)
      simp [get_client, hc, this]
  refine ⟨?_, ?_, ?_⟩
  · intro k now a cache ec hc hvalid
    simp [get_client, hc, hvalid]
  · intro k now a cache hexp
    rw [hrefresh k now a cache hexp]
    constructor
    · cases a <;> simp [get_client_refresh]
    · intro c e ha
      subst ha
      rfl
  · intro k now1 now2 c e cache a2 hexp hwindow
    have h1 : get_client k now1 (AuthOutcome.built c e) cache =
        ⟨some c, cacheInsert cache k ⟨c, now1 + e⟩, true⟩ := by
      rw [hrefresh k now1 (AuthOutcome.built c e) cache hexp]
      rfl
    refine ⟨by rw [h1], ?_⟩
    rw [h1]
    have hc : cacheGet (cacheInsert cache k ⟨c, now1 + e⟩) k =
        some ⟨c, now1 + e⟩ := by
      simp [cacheGet, cacheInsert, List.find?]
    simp [get_client, hc, hwindow]

/-- Witness for C2: an empty cache, one acquisition at time 0 with a
token valid for 100, then one at time 50 — the second performs no
exchange. -/
theorem claim_C2_credential_cache_witness :
    (get_client "key" 0 (AuthOutcome.built 7 100) []).authPerformed = true ∧
    (get_client "key" 50 AuthOutcome.authFailed
        (get_client "key" 0 (AuthOutcome.built 7 100) []).cache).authPerformed =
      false :=
  claim_C2_credential_cache.2.2 "key" 0 50 7 100 [] AuthOutcome.authFailed
    (by intro ec h; simp [cacheGet] at h) (by decide)

/-- C8: `fetch_events` (mock off) decodes each raw record into the
pair of its leaf index and the 32-byte big-endian commitment of its
leaf, preserving the query's order; a record with leaf 1 and leaf
index 5 decodes to leaf index 5 with a 32-byte commitment whose last
byte is 1. -/
theorem claim_C8_event_decoding (logs : List LeafInsertionRecord) :
    ((fetch_events false logs).1.length = logs.length ∧
      ∀ i, (fetch_events false logs).1.get? i =
        (logs.get? i).map
          (fun ev => (ev.leaf_index, hashFromBeBytes (to_be_bytes32 ev.leaf)))) ∧
    (fetch_events false [⟨1, 5⟩]).1 = [(5, to_be_bytes32 1)] ∧
    (to_be_bytes32 1).length = 32 ∧
    (to_be_bytes32 1).getLast? = some 1 := by
  refine ⟨⟨?_, ?_⟩, rfl, ?_, ?_⟩
  · simp [fetch_events]
  · intro i
    simp [fetch_events]
  · simp [to_be_bytes32]
  · decide

end SignupSequencer
